import Mathlib

/-!
Verification of the media-resolution pipeline of `parser/twitter.py`
(Twitter/X share-URL parser).

The shallow embedding models the parsed JSON response document as an
explicit record type in which every field that the Python code reads with
`dict.get(key, default)` is an `Option` (absent = `none`; the getters apply
the Python default).  The pure decision logic of `parse_video_id`
(lines 48-133), `_resolve_tco_url` (lines 135-154) and `_extract_tweet_id`
(lines 156-168) is translated statement by statement; the two HTTP fetches
are modelled by passing the fetch outcome in as a value.
-/

/-- One entry of `video_info.variants` / `video.variants` in the API
response: `{content_type, bitrate, url}`, each field possibly absent. -/
structure Variant where
  content_type : Option String
  bitrate : Option Int
  url : Option String
  deriving DecidableEq

/-- One entry of the `mediaDetails` list: `{type, media_url_https,
video_info.variants}`.  `variants` stands for
`media.get("video_info", {}).get("variants", [])`, with absence of either
level collapsing to the empty list exactly as in the Python code. -/
structure MediaDetail where
  type : Option String
  media_url_https : Option String
  variants : List Variant
  deriving DecidableEq

/-- The optional top-level `video` object: `{poster, variants}`
(`variants` absent collapses to `[]` as in `.get("variants", [])`). -/
structure TopVideo where
  poster : Option String
  variants : List Variant
  deriving DecidableEq

/-- The optional `user` object: `{name, screen_name,
profile_image_url_https, id_str}`. -/
structure UserData where
  name : Option String
  screen_name : Option String
  profile_image_url_https : Option String
  id_str : Option String
  deriving DecidableEq

/-- The parsed API response document (`json_data` in the code): the fields
that `parse_video_id` reads. -/
structure TweetDoc where
  user : Option UserData
  text : Option String
  mediaDetails : List MediaDetail
  video : Option TopVideo
  deriving DecidableEq

/-- Modelled from the spec: an element of the `images` sequence of the
normalized result (`ImgInfo(url=...)`; the record type itself lives in the
`parser.base` module, which is not part of the analysed sources, but its
`url` field is fully determined by its construction site in `twitter.py`). -/
structure ImgInfo where
  url : String
  deriving DecidableEq

/-- Modelled from the spec: the author part of the normalized result
(`VideoAuthor(uid=..., name=..., avatar=...)` construction in `twitter.py`;
the record type lives in the absent `parser.base` module). -/
structure VideoAuthor where
  uid : String
  name : String
  avatar : String
  deriving DecidableEq

/-- Modelled from the spec: the normalized result record
(`VideoInfo(video_url=..., cover_url=..., title=..., images=...,
author=...)` construction in `twitter.py`; the record type lives in the
absent `parser.base` module). -/
structure VideoInfo where
  video_url : String
  cover_url : String
  title : String
  images : List ImgInfo
  author : VideoAuthor
  deriving DecidableEq

/-- Whether a variant's `content_type` (defaulted to `""`) equals
`"video/mp4"` — the filter applied by both selection loops
(`if content_type != "video/mp4": continue`). -/
def isMp4 (variant : Variant) : Bool :=
  variant.content_type.getD "" == "video/mp4"

/-- One iteration of the variant-selection loop (lines 77-85 and 94-102):
the accumulator is `(max_bitrate, video_url)`; a non-MP4 variant is
skipped; an MP4 variant replaces the accumulator when
`bitrate > max_bitrate or not video_url`. -/
def selStep (acc : Int × String) (variant : Variant) : Int × String :=
  if isMp4 variant = false then acc
  else
    let bitrate := variant.bitrate.getD 0
    let url := variant.url.getD ""
    if acc.1 < bitrate ∨ acc.2 = "" then (bitrate, url) else acc

/-- The variant-selection loop run from the initial state
`max_bitrate = 0`, `video_url = ""` (the state both loops start from). -/
def selPair (variants : List Variant) : Int × String :=
  variants.foldl selStep (0, "")

/-- The video URL produced by the variant-selection loop. -/
def selectVariants (variants : List Variant) : String :=
  (selPair variants).2

/-- Whether a `mediaDetails` entry has `media.get("type", "") in
("video", "animated_gif")` (line 68). -/
def isVideoMedia (media : MediaDetail) : Bool :=
  media.type.getD "" == "video" || media.type.getD "" == "animated_gif"

/-- Tier 1 (lines 63-86): walk `mediaDetails`; at the first entry whose
type is `video`/`animated_gif`, set the cover from `media_url_https`, run
the variant-selection loop, and `break`.  Returns
`(video_url, cover_url)`; `("", "")` when no such entry exists. -/
def scanMedia : List MediaDetail → String × String
  | [] => ("", "")
  | media :: rest =>
    if isVideoMedia media then
      (selectVariants media.variants, media.media_url_https.getD "")
    else scanMedia rest

/-- The value of `json_data.get("video", {}).get("variants", [])`. -/
def topVariants (json_data : TweetDoc) : List Variant :=
  (json_data.video.map TopVideo.variants).getD []

/-- The value of `json_data.get("video", {}).get("poster", "")`. -/
def topPoster (json_data : TweetDoc) : String :=
  (json_data.video.bind TopVideo.poster).getD ""

/-- Tiers 1+2 (lines 63-102): tier 1, then — only when `video_url` is
still empty — the top-level `video` fallback, which (when the top-level
variants list is non-empty) overwrites the cover with the poster and runs
the same selection loop. -/
def tier12 (json_data : TweetDoc) : String × String :=
  if (scanMedia json_data.mediaDetails).1 = "" then
    if topVariants json_data = [] then scanMedia json_data.mediaDetails
    else (selectVariants (topVariants json_data), topPoster json_data)
  else scanMedia json_data.mediaDetails

/-- Whether a `mediaDetails` entry has `media.get("type") == "photo"`
(line 107; no default — an absent type compares unequal, like `None`). -/
def isPhoto (media : MediaDetail) : Bool :=
  media.type == some "photo"

/-- The photo-collection loop (lines 106-110): every `photo` entry in
document order, skipping entries whose image URL defaults to `""`. -/
def photoImages : List MediaDetail → List ImgInfo
  | [] => []
  | media :: rest =>
    if isPhoto media then
      let image_url := media.media_url_https.getD ""
      if image_url = "" then photoImages rest
      else { url := image_url } :: photoImages rest
    else photoImages rest

/-- Tier 3 (lines 105-110): the photo collection runs only when no video
URL was obtained and `media_details` is non-empty (Python truthiness);
otherwise `images` keeps its initial value `[]`. -/
def tier3Images (json_data : TweetDoc) : List ImgInfo :=
  if (tier12 json_data).1 = "" ∧ json_data.mediaDetails ≠ [] then
    photoImages json_data.mediaDetails
  else []

/-- The final `cover_url` (lines 112-114): when images were collected the
first image's URL overwrites the cover, else the tier-1/2 cover stands. -/
def finalCover (json_data : TweetDoc) : String :=
  match tier3Images json_data with
  | [] => (tier12 json_data).2
  | img :: _ => img.url

/-- The message of the `Exception` raised when neither video nor images
were found (line 117) — the spec's `NoMediaFound`. -/
def noMediaMsg : String := "该推文中没有找到视频或图片"

/-- The display name (line 120):
`author_name if author_name else author_screen_name`. -/
def displayNameOf (json_data : TweetDoc) : String :=
  let author_name := (json_data.user.bind UserData.name).getD ""
  if author_name = "" then (json_data.user.bind UserData.screen_name).getD ""
  else author_name

/-- The `VideoAuthor(uid=author_id, name=display_name, avatar=author_avatar)`
assembly (lines 127-131), with the `.get(..., "")` defaults applied
through the possibly-absent `user` object (lines 48-52). -/
def authorOf (json_data : TweetDoc) : VideoAuthor :=
  { uid := (json_data.user.bind UserData.id_str).getD ""
    name := displayNameOf json_data
    avatar := (json_data.user.bind UserData.profile_image_url_https).getD "" }

/-- Lines 48-133 of `parse_video_id`, after the HTTP fetch: author
extraction, the three-tier media selection, the no-media failure, and the
assembly of the normalized result. -/
def parseVideoIdDoc (json_data : TweetDoc) : Except String VideoInfo :=
  if (tier12 json_data).1 = "" ∧ tier3Images json_data = [] then
    Except.error noMediaMsg
  else
    Except.ok
      { video_url := (tier12 json_data).1
        cover_url := finalCover json_data
        title := json_data.text.getD ""
        images := tier3Images json_data
        author := authorOf json_data }

/-- The parts of the short-link HTTP response that `_resolve_tco_url`
reads: the status code and `headers.get("location", "")` (absent header =
`none`). -/
structure HttpResponse where
  status_code : Int
  location : Option String
  deriving DecidableEq

/-- Lines 135-154 (`_resolve_tco_url`): the single GET is modelled by its
outcome `fetched` (`Except.error e` = the transport raised `e`; the
function body has no `try`/`except`, so such an error propagates).  On a
response, return the `Location` header when the status is 301/302 and the
header is non-empty, else the original URL. -/
def resolveTcoUrl (tco_url : String) (fetched : Except String HttpResponse) :
    Except String String :=
  match fetched with
  | Except.error e => Except.error e
  | Except.ok response =>
    if response.status_code = 301 ∨ response.status_code = 302 then
      let location := response.location.getD ""
      if location ≠ "" then Except.ok location else Except.ok tco_url
    else Except.ok tco_url

/-- Characters of the literal `twitter\.com` alternative of the pattern
`(?:twitter\.com|x\.com)/[^/]+/status(?:es)?/(\d+)`. -/
def twitterHost : List Char := ['t', 'w', 'i', 't', 't', 'e', 'r', '.', 'c', 'o', 'm']

/-- Characters of the literal `x\.com` alternative of the pattern. -/
def xHost : List Char := ['x', '.', 'c', 'o', 'm']

/-- Characters of the literal `/status` part of the pattern. -/
def statusLit : List Char := ['/', 's', 't', 'a', 't', 'u', 's']

/-- Characters of the optional literal `es` part of the pattern. -/
def esLit : List Char := ['e', 's']

/-- Characters of the word `status`, used to state that every successful
pattern match contains it. -/
def statusChars : List Char := ['s', 't', 'a', 't', 'u', 's']

/-- Match a literal character sequence at the head of the input, returning
the rest of the input on success. -/
def litMatch : List Char → List Char → Option (List Char)
  | [], s => some s
  | _ :: _, [] => none
  | p :: ps, c :: cs => if p = c then litMatch ps cs else none

/-- The alternation `(?:twitter\.com|x\.com)` at the current position
(alternatives tried left to right, as in the regex engine). -/
def hostAlt (s : List Char) : Option (List Char) :=
  match litMatch twitterHost s with
  | some r => some r
  | none => litMatch xHost s

/-- The tail `/(\d+)` of the pattern: a literal `/` followed by a maximal
non-empty digit run, which is the captured group. -/
def digitsTail (s : List Char) : Option (List Char) :=
  match s with
  | '/' :: rest =>
    let ds := rest.takeWhile Char.isDigit
    if ds = [] then none else some ds
  | _ => none

/-- Attempt the whole pattern
`(?:twitter\.com|x\.com)/[^/]+/status(?:es)?/(\d+)` at one position,
returning the captured digits.  `[^/]+` is taken greedily: since the
pattern continues with a literal `/`, any shorter match of `[^/]+` leaves
a non-`/` character next and fails, so greedy matching without
backtracking is equivalent to the regex semantics.  The optional `es` is
tried first and the engine falls back to skipping it, exactly as
`(?:es)?` backtracks. -/
def matchAt (s : List Char) : Option (List Char) :=
  match hostAlt s with
  | none => none
  | some r1 =>
    match r1 with
    | '/' :: r2 =>
      if r2.takeWhile (fun c => c != '/') = [] then none
      else
        match litMatch statusLit (r2.dropWhile (fun c => c != '/')) with
        | none => none
        | some r4 =>
          match litMatch esLit r4 with
          | some r5 =>
            match digitsTail r5 with
            | some d => some d
            | none => digitsTail r4
          | none => digitsTail r4
    | _ => none

/-- `re.search`: try the pattern at every position, leftmost first. -/
def reSearch : List Char → Option (List Char)
  | [] => matchAt []
  | c :: t =>
    match matchAt (c :: t) with
    | some d => some d
    | none => reSearch t

/-- The `ValueError` message of `_extract_tweet_id`, carrying the
offending URL — the spec's `InvalidUrlFormat`. -/
def invalidUrlMsg (share_url : String) : String :=
  "无法从 URL 中提取推文 ID: " ++ share_url

/-- Lines 156-168 (`_extract_tweet_id`): search the URL for the pattern
and return the captured digit group, else fail with the `ValueError`
carrying the URL. -/
def extractTweetId (share_url : String) : Except String String :=
  match reSearch share_url.data with
  | some d => Except.ok (String.mk d)
  | none => Except.error (invalidUrlMsg share_url)

/-- Example media entry: one `video` with an 832000-bitrate MP4, an
`application/x-mpegURL` playlist, and a 2176000-bitrate MP4 (the spec's
media-selection-priority fixture). -/
def exVideoMedia : MediaDetail :=
  { type := some "video"
    media_url_https := some "https://pbs.twimg.com/media/cover.jpg"
    variants :=
      [ { content_type := some "video/mp4", bitrate := some 832000,
          url := some "https://video.twimg.com/832.mp4" },
        { content_type := some "application/x-mpegURL", bitrate := none,
          url := some "https://video.twimg.com/pl.m3u8" },
        { content_type := some "video/mp4", bitrate := some 2176000,
          url := some "https://video.twimg.com/2176.mp4" } ] }

/-- Example response document containing `exVideoMedia` as its only
`mediaDetails` entry. -/
def exVideoDoc : TweetDoc :=
  { user := none
    text := some "hello"
    mediaDetails := [exVideoMedia]
    video := none }

/-- Example response document with three `photo` entries and no video. -/
def exPhotoDoc : TweetDoc :=
  { user := some { name := some "", screen_name := some "alice",
                   profile_image_url_https := none, id_str := some "42" }
    text := some "pics"
    mediaDetails :=
      [ { type := some "photo", media_url_https := some "https://pbs.twimg.com/1.jpg",
          variants := [] },
        { type := some "photo", media_url_https := some "https://pbs.twimg.com/2.jpg",
          variants := [] },
        { type := some "photo", media_url_https := some "https://pbs.twimg.com/3.jpg",
          variants := [] } ]
    video := none }

/-- Example response document in which tier 1 finds a `video` entry (and so
sets the cover from it) but obtains no MP4 URL, while the top-level `video`
field has a non-empty variants list containing no `video/mp4` entry. -/
def exPosterDoc : TweetDoc :=
  { user := none
    text := none
    mediaDetails :=
      [ { type := some "video", media_url_https := some "https://pbs.twimg.com/tier1-cover.jpg",
          variants := [] } ]
    video := some
      { poster := some "https://pbs.twimg.com/poster.jpg"
        variants :=
          [ { content_type := some "application/x-mpegURL", bitrate := some 256000,
              url := some "https://video.twimg.com/pl.m3u8" } ] } }

/-- Example response document whose only video lives in the top-level
`video` field (tier 2), with an MP4 variant. -/
def exTopVideoDoc : TweetDoc :=
  { user := none
    text := some "top"
    mediaDetails := []
    video := some
      { poster := some "https://pbs.twimg.com/top-poster.jpg"
        variants :=
          [ { content_type := some "video/mp4", bitrate := some 950000,
              url := some "https://video.twimg.com/top.mp4" } ] } }

/-- The normalized result that `parse_video_id` produces on `exVideoDoc`. -/
def exVideoResult : VideoInfo :=
  { video_url := "https://video.twimg.com/2176.mp4"
    cover_url := "https://pbs.twimg.com/media/cover.jpg"
    title := "hello"
    images := []
    author := { uid := "", name := "", avatar := "" } }

/-- The normalized result that `parse_video_id` produces on the photo
document when the `user` object is absent. -/
def exPhotoNoUserResult : VideoInfo :=
  { video_url := ""
    cover_url := "https://pbs.twimg.com/1.jpg"
    title := "pics"
    images := [{ url := "https://pbs.twimg.com/1.jpg" }, { url := "https://pbs.twimg.com/2.jpg" },
      { url := "https://pbs.twimg.com/3.jpg" }]
    author := { uid := "", name := "", avatar := "" } }

/-! ### Lemmas about the variant-selection loop -/

theorem selStep_skip (acc : Int × String) (v : Variant) (h : isMp4 v = false) :
    selStep acc v = acc := by
  simp [selStep, h]

theorem selStep_mp4 (acc : Int × String) (v : Variant) (h : isMp4 v = true) :
    selStep acc v =
      if acc.1 < v.bitrate.getD 0 ∨ acc.2 = "" then (v.bitrate.getD 0, v.url.getD "")
      else acc := by
  simp [selStep, h]

theorem foldl_selStep_filter (l : List Variant) (acc : Int × String) :
    l.foldl selStep acc = (l.filter isMp4).foldl selStep acc := by
  induction l generalizing acc with
  | nil => rfl
  | cons v rest ih =>
    cases h : isMp4 v with
    | false => simp [List.filter_cons, h, selStep_skip _ _ h, ih]
    | true => simp [List.filter_cons, h, ih]

theorem foldl_selStep_nomp4 (ws : List Variant) (acc : Int × String)
    (h : ∀ w ∈ ws, isMp4 w = false) :
    ws.foldl selStep acc = acc := by
  induction ws generalizing acc with
  | nil => rfl
  | cons w rest ih =>
    rw [List.foldl_cons, selStep_skip _ _ (h w (by simp))]
    exact ih _ (fun x hx => h x (by simp [hx]))

theorem selectVariants_first_mp4 (ws : List Variant) (v : Variant)
    (hws : ∀ w ∈ ws, isMp4 w = false) (hv : isMp4 v = true) :
    selectVariants (ws ++ [v]) = v.url.getD "" := by
  unfold selectVariants selPair
  rw [List.foldl_append, foldl_selStep_nomp4 ws _ hws]
  simp [selStep_mp4 _ _ hv]

theorem selPair_append_mp4 (l : List Variant) (v : Variant) (hv : isMp4 v = true) :
    selPair (l ++ [v]) =
      if (selPair l).1 < v.bitrate.getD 0 ∨ (selPair l).2 = ""
      then (v.bitrate.getD 0, v.url.getD "") else selPair l := by
  unfold selPair
  rw [List.foldl_append]
  simp [selStep_mp4 _ _ hv, selPair]

theorem foldl_selStep_max (l : List Variant) (b : Int) (u : String) (hu : u ≠ "")
    (hl : ∀ v ∈ l, isMp4 v = true → v.url.getD "" ≠ "") :
    (l.foldl selStep (b, u) = (b, u) ∧ ∀ v ∈ l, isMp4 v = true → v.bitrate.getD 0 ≤ b) ∨
    (∃ v ∈ l, isMp4 v = true ∧
      l.foldl selStep (b, u) = (v.bitrate.getD 0, v.url.getD "") ∧
      b < v.bitrate.getD 0 ∧
      ∀ w ∈ l, isMp4 w = true → w.bitrate.getD 0 ≤ v.bitrate.getD 0) := by
  induction l generalizing b u with
  | nil => left; exact ⟨rfl, by simp⟩
  | cons v rest ih =>
    rw [List.foldl_cons]
    cases hmp : isMp4 v with
    | false =>
      rw [selStep_skip _ _ hmp]
      rcases ih b u hu (fun w hw => hl w (by simp [hw])) with ⟨he, hb⟩ | ⟨v', hm, h4, he, hlt, hb⟩
      · left
        refine ⟨he, ?_⟩
        intro w hw h4
        rcases List.mem_cons.mp hw with rfl | hw
        · rw [hmp] at h4; exact absurd h4 (by simp)
        · exact hb w hw h4
      · right
        refine ⟨v', List.mem_cons_of_mem _ hm, h4, he, hlt, ?_⟩
        intro w hw hw4
        rcases List.mem_cons.mp hw with rfl | hw
        · rw [hmp] at hw4; exact absurd hw4 (by simp)
        · exact hb w hw hw4
    | true =>
      rw [selStep_mp4 _ _ hmp]
      have hcond : ((b, u).1 < v.bitrate.getD 0 ∨ (b, u).2 = "") ↔ b < v.bitrate.getD 0 := by
        simp [hu]
      by_cases hb0 : b < v.bitrate.getD 0
      · rw [if_pos (hcond.mpr hb0)]
        have hu0 : v.url.getD "" ≠ "" := hl v (by simp) hmp
        rcases ih (v.bitrate.getD 0) (v.url.getD "") hu0 (fun w hw => hl w (by simp [hw])) with
          ⟨he, hbd⟩ | ⟨v', hm, h4, he, hlt, hbd⟩
        · right
          refine ⟨v, by simp, hmp, he, hb0, ?_⟩
          intro w hw hw4
          rcases List.mem_cons.mp hw with rfl | hw
          · exact le_refl _
          · exact hbd w hw hw4
        · right
          refine ⟨v', List.mem_cons_of_mem _ hm, h4, he, lt_trans hb0 hlt, ?_⟩
          intro w hw hw4
          rcases List.mem_cons.mp hw with rfl | hw
          · exact le_of_lt hlt
          · exact hbd w hw hw4
      · rw [if_neg (fun hc => hb0 (hcond.mp hc))]
        rcases ih b u hu (fun w hw => hl w (by simp [hw])) with ⟨he, hbd⟩ | ⟨v', hm, h4, he, hlt, hbd⟩
        · left
          refine ⟨he, ?_⟩
          intro w hw hw4
          rcases List.mem_cons.mp hw with rfl | hw
          · exact le_of_not_lt hb0
          · exact hbd w hw hw4
        · right
          refine ⟨v', List.mem_cons_of_mem _ hm, h4, he, hlt, ?_⟩
          intro w hw hw4
          rcases List.mem_cons.mp hw with rfl | hw
          · exact le_trans (le_of_not_lt hb0) (le_of_lt hlt)
          · exact hbd w hw hw4

theorem selectVariants_max (l : List Variant)
    (hl : ∀ v ∈ l, isMp4 v = true → v.url.getD "" ≠ "")
    (hne : l.filter isMp4 ≠ []) :
    ∃ v ∈ l.filter isMp4, selectVariants l = v.url.getD "" ∧
      ∀ w ∈ l.filter isMp4, w.bitrate.getD 0 ≤ v.bitrate.getD 0 := by
  induction l with
  | nil => simp at hne
  | cons v rest ih =>
    cases hmp : isMp4 v with
    | false =>
      have hsel : selectVariants (v :: rest) = selectVariants rest := by
        unfold selectVariants selPair
        rw [List.foldl_cons, selStep_skip _ _ hmp]
      rw [List.filter_cons, if_neg (by simp [hmp])] at hne ⊢
      rw [hsel]
      exact ih (fun w hw => hl w (by simp [hw])) hne
    | true =>
      have hu0 : v.url.getD "" ≠ "" := hl v (by simp) hmp
      have hstep : selStep (0, "") v = (v.bitrate.getD 0, v.url.getD "") := by
        rw [selStep_mp4 _ _ hmp]; simp
      have hfc : List.filter isMp4 (v :: rest) = v :: List.filter isMp4 rest := by
        rw [List.filter_cons, if_pos (by simp [hmp])]
      rcases foldl_selStep_max rest (v.bitrate.getD 0) (v.url.getD "") hu0
          (fun w hw => hl w (by simp [hw])) with ⟨he, hbd⟩ | ⟨v', hm, h4, he, hlt, hbd⟩
      · refine ⟨v, by rw [hfc]; exact List.mem_cons_self _ _, ?_, ?_⟩
        · unfold selectVariants selPair
          rw [List.foldl_cons, hstep, he]
        · intro w hw
          rw [hfc] at hw
          rcases List.mem_cons.mp hw with rfl | hw
          · exact le_refl _
          · rcases List.mem_filter.mp hw with ⟨hwm, hw4⟩
            exact hbd w hwm hw4
      · refine ⟨v', by rw [hfc]; exact List.mem_cons_of_mem _ (List.mem_filter.mpr ⟨hm, h4⟩), ?_, ?_⟩
        · unfold selectVariants selPair
          rw [List.foldl_cons, hstep, he]
        · intro w hw
          rw [hfc] at hw
          rcases List.mem_cons.mp hw with rfl | hw
          · exact le_of_lt hlt
          · rcases List.mem_filter.mp hw with ⟨hwm, hw4⟩
            exact hbd w hwm hw4

/-! ### Lemmas about the tier-1 scan and the tier composition -/

theorem scanMedia_video (m : MediaDetail) (post : List MediaDetail)
    (h : isVideoMedia m = true) :
    scanMedia (m :: post) = (selectVariants m.variants, m.media_url_https.getD "") := by
  simp [scanMedia, h]

theorem scanMedia_skip (pre : List MediaDetail) (l : List MediaDetail)
    (h : ∀ x ∈ pre, isVideoMedia x = false) :
    scanMedia (pre ++ l) = scanMedia l := by
  induction pre with
  | nil => rfl
  | cons m rest ih =>
    rw [List.cons_append]
    simp [scanMedia, h m (by simp)]
    exact ih (fun x hx => h x (by simp [hx]))

theorem tier12_of_video (doc : TweetDoc) (h : (scanMedia doc.mediaDetails).1 ≠ "") :
    tier12 doc = scanMedia doc.mediaDetails := by
  unfold tier12
  rw [if_neg h]

theorem tier12_no_top (doc : TweetDoc) (h1 : (scanMedia doc.mediaDetails).1 = "")
    (h2 : topVariants doc = []) :
    tier12 doc = scanMedia doc.mediaDetails := by
  unfold tier12
  rw [if_pos h1, if_pos h2]

theorem tier12_top (doc : TweetDoc) (h1 : (scanMedia doc.mediaDetails).1 = "")
    (h2 : topVariants doc ≠ []) :
    tier12 doc = (selectVariants (topVariants doc), topPoster doc) := by
  unfold tier12
  rw [if_pos h1, if_neg h2]

/-! ### Lemmas about the photo collection and the result assembly -/

theorem photoImages_eq_filter (l : List MediaDetail) :
    photoImages l =
      (l.filter (fun media => isPhoto media && (media.media_url_https.getD "" != ""))).map
        (fun media => { url := media.media_url_https.getD "" }) := by
  induction l with
  | nil => rfl
  | cons m rest ih =>
    cases hp : isPhoto m with
    | false => simp [photoImages, hp, List.filter_cons, ih]
    | true =>
      by_cases hu : m.media_url_https.getD "" = ""
      · simp [photoImages, hp, hu, List.filter_cons, ih]
      · simp [photoImages, hp, hu, List.filter_cons, ih]

theorem tier3Images_of_video (doc : TweetDoc) (h : (tier12 doc).1 ≠ "") :
    tier3Images doc = [] := by
  simp [tier3Images, h]

theorem tier3Images_of_photos (doc : TweetDoc) (h1 : (tier12 doc).1 = "")
    (h2 : doc.mediaDetails ≠ []) :
    tier3Images doc = photoImages doc.mediaDetails := by
  simp [tier3Images, h1, h2]

theorem finalCover_of_no_images (doc : TweetDoc) (h : tier3Images doc = []) :
    finalCover doc = (tier12 doc).2 := by
  unfold finalCover
  rw [h]

theorem parse_ok_of_video (doc : TweetDoc) (h : (tier12 doc).1 ≠ "") :
    parseVideoIdDoc doc =
      Except.ok
        { video_url := (tier12 doc).1
          cover_url := (tier12 doc).2
          title := doc.text.getD ""
          images := []
          author := authorOf doc } := by
  unfold parseVideoIdDoc
  rw [if_neg (fun hc => h hc.1), tier3Images_of_video doc h,
    finalCover_of_no_images doc (tier3Images_of_video doc h)]

/-! ### Lemmas about the tweet-id pattern matcher -/

theorem litMatch_self (l r : List Char) : litMatch l (l ++ r) = some r := by
  induction l with
  | nil => rfl
  | cons c cs ih => simp [litMatch, ih]

theorem litMatch_eq_append (l : List Char) : ∀ s r : List Char,
    litMatch l s = some r → s = l ++ r := by
  induction l with
  | nil =>
    intro s r h
    simp [litMatch] at h
    simp [h]
  | cons c cs ih =>
    intro s r h
    cases s with
    | nil => simp [litMatch] at h
    | cons a as =>
      by_cases hc : c = a
      · subst hc
        simp only [litMatch, if_pos rfl] at h
        simpa using ih as r h
      · simp [litMatch, hc] at h

theorem hostAlt_x (r : List Char) : hostAlt (xHost ++ r) = some r := by
  have h1 : litMatch twitterHost (xHost ++ r) = none := by
    simp [twitterHost, xHost, litMatch]
  simp [hostAlt, h1, litMatch_self]

theorem hostAlt_twitter (r : List Char) : hostAlt (twitterHost ++ r) = some r := by
  simp [hostAlt, litMatch_self]

theorem takeWhile_digits (D : List Char) (h : ∀ c ∈ D, c.isDigit = true) :
    D.takeWhile Char.isDigit = D := by
  induction D with
  | nil => rfl
  | cons c cs ih =>
    simp [List.takeWhile_cons, h c (by simp), ih (fun x hx => h x (by simp [hx]))]

theorem digitsTail_digits (D : List Char) (hD : D ≠ []) (h : ∀ c ∈ D, c.isDigit = true) :
    digitsTail ('/' :: D) = some D := by
  simp [digitsTail, takeWhile_digits D h, hD]

theorem takeWhile_seg (u : List Char) (rest : List Char) (hu2 : ∀ c ∈ u, c ≠ '/') :
    (u ++ '/' :: rest).takeWhile (fun c => c != '/') = u := by
  rw [List.takeWhile_append_of_pos (by intro a ha; simpa using hu2 a ha)]
  simp [List.takeWhile_cons]

theorem dropWhile_seg (u : List Char) (rest : List Char) (hu2 : ∀ c ∈ u, c ≠ '/') :
    (u ++ '/' :: rest).dropWhile (fun c => c != '/') = '/' :: rest := by
  rw [List.dropWhile_append_of_pos (by intro a ha; simpa using hu2 a ha)]
  simp [List.dropWhile_cons]

theorem matchAt_x_status (u D : List Char) (hu : u ≠ []) (hu2 : ∀ c ∈ u, c ≠ '/')
    (hD : D ≠ []) (hD2 : ∀ c ∈ D, c.isDigit = true) :
    matchAt (xHost ++ '/' :: (u ++ '/' :: 's' :: 't' :: 'a' :: 't' :: 'u' :: 's' :: '/' :: D)) =
      some D := by
  unfold matchAt
  rw [hostAlt_x]
  simp only [takeWhile_seg u _ hu2, dropWhile_seg u _ hu2]
  rw [if_neg hu]
  have hst : litMatch statusLit ('/' :: 's' :: 't' :: 'a' :: 't' :: 'u' :: 's' :: '/' :: D) =
      some ('/' :: D) := litMatch_self statusLit ('/' :: D)
  have hes : litMatch esLit ('/' :: D) = none := by simp [esLit, litMatch]
  simp only [hst, hes, digitsTail_digits D hD hD2]

theorem matchAt_twitter_status (u D : List Char) (hu : u ≠ []) (hu2 : ∀ c ∈ u, c ≠ '/')
    (hD : D ≠ []) (hD2 : ∀ c ∈ D, c.isDigit = true) :
    matchAt
      (twitterHost ++ '/' :: (u ++ '/' :: 's' :: 't' :: 'a' :: 't' :: 'u' :: 's' :: '/' :: D)) =
      some D := by
  unfold matchAt
  rw [hostAlt_twitter]
  simp only [takeWhile_seg u _ hu2, dropWhile_seg u _ hu2]
  rw [if_neg hu]
  have hst : litMatch statusLit ('/' :: 's' :: 't' :: 'a' :: 't' :: 'u' :: 's' :: '/' :: D) =
      some ('/' :: D) := litMatch_self statusLit ('/' :: D)
  have hes : litMatch esLit ('/' :: D) = none := by simp [esLit, litMatch]
  simp only [hst, hes, digitsTail_digits D hD hD2]

theorem matchAt_twitter_statuses (u D : List Char) (hu : u ≠ []) (hu2 : ∀ c ∈ u, c ≠ '/')
    (hD : D ≠ []) (hD2 : ∀ c ∈ D, c.isDigit = true) :
    matchAt
      (twitterHost ++
        '/' :: (u ++ '/' :: 's' :: 't' :: 'a' :: 't' :: 'u' :: 's' :: 'e' :: 's' :: '/' :: D)) =
      some D := by
  unfold matchAt
  rw [hostAlt_twitter]
  simp only [takeWhile_seg u _ hu2, dropWhile_seg u _ hu2]
  rw [if_neg hu]
  have hst :
      litMatch statusLit ('/' :: 's' :: 't' :: 'a' :: 't' :: 'u' :: 's' :: 'e' :: 's' :: '/' :: D) =
      some ('e' :: 's' :: '/' :: D) := litMatch_self statusLit ('e' :: 's' :: '/' :: D)
  have hes : litMatch esLit ('e' :: 's' :: '/' :: D) = some ('/' :: D) :=
    litMatch_self esLit ('/' :: D)
  simp only [hst, hes, digitsTail_digits D hD hD2]

theorem matchAt_ne_host (c : Char) (t : List Char) (h1 : c ≠ 't') (h2 : c ≠ 'x') :
    matchAt (c :: t) = none := by
  have e1 : litMatch twitterHost (c :: t) = none := by
    simp [twitterHost, litMatch, Ne.symm h1]
  have e2 : litMatch xHost (c :: t) = none := by
    simp [xHost, litMatch, Ne.symm h2]
  simp [matchAt, hostAlt, e1, e2]

theorem matchAt_t_fail (c : Char) (t : List Char) (h : c ≠ 'w') :
    matchAt ('t' :: c :: t) = none := by
  have e1 : litMatch twitterHost ('t' :: c :: t) = none := by
    simp [twitterHost, litMatch, Ne.symm h]
  have e2 : litMatch xHost ('t' :: c :: t) = none := by
    simp [xHost, litMatch]
  simp [matchAt, hostAlt, e1, e2]

theorem reSearch_hit (s d : List Char) (h : matchAt s = some d) :
    reSearch s = some d := by
  cases s with
  | nil => simpa [reSearch] using h
  | cons c t => simp [reSearch, h]

theorem reSearch_step (c : Char) (t : List Char) (h : matchAt (c :: t) = none) :
    reSearch (c :: t) = reSearch t := by
  simp [reSearch, h]

theorem reSearch_https (t : List Char) :
    reSearch ('h' :: 't' :: 't' :: 'p' :: 's' :: ':' :: '/' :: '/' :: t) = reSearch t := by
  rw [reSearch_step 'h' _ (matchAt_ne_host 'h' _ (by decide) (by decide))]
  rw [reSearch_step 't' _ (matchAt_t_fail 't' _ (by decide))]
  rw [reSearch_step 't' _ (matchAt_t_fail 'p' _ (by decide))]
  rw [reSearch_step 'p' _ (matchAt_ne_host 'p' _ (by decide) (by decide))]
  rw [reSearch_step 's' _ (matchAt_ne_host 's' _ (by decide) (by decide))]
  rw [reSearch_step ':' _ (matchAt_ne_host ':' _ (by decide) (by decide))]
  rw [reSearch_step '/' _ (matchAt_ne_host '/' _ (by decide) (by decide))]
  rw [reSearch_step '/' _ (matchAt_ne_host '/' _ (by decide) (by decide))]

theorem reSearch_mobile (t : List Char) :
    reSearch ('m' :: 'o' :: 'b' :: 'i' :: 'l' :: 'e' :: '.' :: t) = reSearch t := by
  rw [reSearch_step 'm' _ (matchAt_ne_host 'm' _ (by decide) (by decide))]
  rw [reSearch_step 'o' _ (matchAt_ne_host 'o' _ (by decide) (by decide))]
  rw [reSearch_step 'b' _ (matchAt_ne_host 'b' _ (by decide) (by decide))]
  rw [reSearch_step 'i' _ (matchAt_ne_host 'i' _ (by decide) (by decide))]
  rw [reSearch_step 'l' _ (matchAt_ne_host 'l' _ (by decide) (by decide))]
  rw [reSearch_step 'e' _ (matchAt_ne_host 'e' _ (by decide) (by decide))]
  rw [reSearch_step '.' _ (matchAt_ne_host '.' _ (by decide) (by decide))]

theorem string_ne_data (u : String) (hu : u ≠ "") : u.data ≠ [] :=
  fun h => hu (String.ext h)

theorem extract_ok_x (u D : String) (hu : u ≠ "") (hu2 : ∀ c ∈ u.data, c ≠ '/')
    (hD : D ≠ "") (hD2 : ∀ c ∈ D.data, c.isDigit = true) :
    extractTweetId ("https://x.com/" ++ u ++ "/status/" ++ D) = Except.ok D := by
  have hdata : ("https://x.com/" ++ u ++ "/status/" ++ D).data =
      'h' :: 't' :: 't' :: 'p' :: 's' :: ':' :: '/' :: '/' ::
        ('x' :: '.' :: 'c' :: 'o' :: 'm' :: '/' ::
          (u.data ++ '/' :: 's' :: 't' :: 'a' :: 't' :: 'u' :: 's' :: '/' :: D.data)) := by
    simp [String.data_append]
  have hre : reSearch
      ('x' :: '.' :: 'c' :: 'o' :: 'm' :: '/' ::
        (u.data ++ '/' :: 's' :: 't' :: 'a' :: 't' :: 'u' :: 's' :: '/' :: D.data)) =
      some D.data :=
    reSearch_hit _ _
      (matchAt_x_status u.data D.data (string_ne_data u hu) hu2 (string_ne_data D hD) hD2)
  unfold extractTweetId
  rw [hdata, reSearch_https, hre]

theorem extract_ok_twitter (u D : String) (hu : u ≠ "") (hu2 : ∀ c ∈ u.data, c ≠ '/')
    (hD : D ≠ "") (hD2 : ∀ c ∈ D.data, c.isDigit = true) :
    extractTweetId ("https://twitter.com/" ++ u ++ "/status/" ++ D) = Except.ok D := by
  have hdata : ("https://twitter.com/" ++ u ++ "/status/" ++ D).data =
      'h' :: 't' :: 't' :: 'p' :: 's' :: ':' :: '/' :: '/' ::
        ('t' :: 'w' :: 'i' :: 't' :: 't' :: 'e' :: 'r' :: '.' :: 'c' :: 'o' :: 'm' :: '/' ::
          (u.data ++ '/' :: 's' :: 't' :: 'a' :: 't' :: 'u' :: 's' :: '/' :: D.data)) := by
    simp [String.data_append]
  have hre : reSearch
      ('t' :: 'w' :: 'i' :: 't' :: 't' :: 'e' :: 'r' :: '.' :: 'c' :: 'o' :: 'm' :: '/' ::
        (u.data ++ '/' :: 's' :: 't' :: 'a' :: 't' :: 'u' :: 's' :: '/' :: D.data)) =
      some D.data :=
    reSearch_hit _ _
      (matchAt_twitter_status u.data D.data (string_ne_data u hu) hu2 (string_ne_data D hD) hD2)
  unfold extractTweetId
  rw [hdata, reSearch_https, hre]

theorem extract_ok_mobile (u D : String) (hu : u ≠ "") (hu2 : ∀ c ∈ u.data, c ≠ '/')
    (hD : D ≠ "") (hD2 : ∀ c ∈ D.data, c.isDigit = true) :
    extractTweetId ("https://mobile.twitter.com/" ++ u ++ "/statuses/" ++ D) = Except.ok D := by
  have hdata : ("https://mobile.twitter.com/" ++ u ++ "/statuses/" ++ D).data =
      'h' :: 't' :: 't' :: 'p' :: 's' :: ':' :: '/' :: '/' ::
        ('m' :: 'o' :: 'b' :: 'i' :: 'l' :: 'e' :: '.' ::
          ('t' :: 'w' :: 'i' :: 't' :: 't' :: 'e' :: 'r' :: '.' :: 'c' :: 'o' :: 'm' :: '/' ::
            (u.data ++
              '/' :: 's' :: 't' :: 'a' :: 't' :: 'u' :: 's' :: 'e' :: 's' :: '/' :: D.data))) := by
    simp [String.data_append]
  have hre : reSearch
      ('t' :: 'w' :: 'i' :: 't' :: 't' :: 'e' :: 'r' :: '.' :: 'c' :: 'o' :: 'm' :: '/' ::
        (u.data ++ '/' :: 's' :: 't' :: 'a' :: 't' :: 'u' :: 's' :: 'e' :: 's' :: '/' :: D.data)) =
      some D.data :=
    reSearch_hit _ _
      (matchAt_twitter_statuses u.data D.data (string_ne_data u hu) hu2 (string_ne_data D hD) hD2)
  unfold extractTweetId
  rw [hdata, reSearch_https, reSearch_mobile, hre]

theorem extract_ok_evil (D : String) (hD : D ≠ "") (hD2 : ∀ c ∈ D.data, c.isDigit = true) :
    extractTweetId ("https://evil-x.com/u/status/" ++ D) = Except.ok D := by
  have hdata : ("https://evil-x.com/u/status/" ++ D).data =
      'h' :: 't' :: 't' :: 'p' :: 's' :: ':' :: '/' :: '/' ::
        ('e' :: 'v' :: 'i' :: 'l' :: '-' ::
          ('x' :: '.' :: 'c' :: 'o' :: 'm' :: '/' ::
            (['u'] ++ '/' :: 's' :: 't' :: 'a' :: 't' :: 'u' :: 's' :: '/' :: D.data))) := by
    simp [String.data_append]
  have hre : reSearch
      ('x' :: '.' :: 'c' :: 'o' :: 'm' :: '/' ::
        (['u'] ++ '/' :: 's' :: 't' :: 'a' :: 't' :: 'u' :: 's' :: '/' :: D.data)) =
      some D.data :=
    reSearch_hit _ _
      (matchAt_x_status ['u'] D.data (by simp) (by simp) (string_ne_data D hD) hD2)
  unfold extractTweetId
  rw [hdata, reSearch_https]
  rw [reSearch_step 'e' _ (matchAt_ne_host 'e' _ (by decide) (by decide))]
  rw [reSearch_step 'v' _ (matchAt_ne_host 'v' _ (by decide) (by decide))]
  rw [reSearch_step 'i' _ (matchAt_ne_host 'i' _ (by decide) (by decide))]
  rw [reSearch_step 'l' _ (matchAt_ne_host 'l' _ (by decide) (by decide))]
  rw [reSearch_step '-' _ (matchAt_ne_host '-' _ (by decide) (by decide))]
  rw [hre]

theorem extract_ok_nottwitter (D : String) (hD : D ≠ "")
    (hD2 : ∀ c ∈ D.data, c.isDigit = true) :
    extractTweetId ("https://nottwitter.com/u/status/" ++ D) = Except.ok D := by
  have hdata : ("https://nottwitter.com/u/status/" ++ D).data =
      'h' :: 't' :: 't' :: 'p' :: 's' :: ':' :: '/' :: '/' ::
        ('n' :: 'o' :: 't' ::
          ('t' :: 'w' :: 'i' :: 't' :: 't' :: 'e' :: 'r' :: '.' :: 'c' :: 'o' :: 'm' :: '/' ::
            (['u'] ++ '/' :: 's' :: 't' :: 'a' :: 't' :: 'u' :: 's' :: '/' :: D.data))) := by
    simp [String.data_append]
  have hre : reSearch
      ('t' :: 'w' :: 'i' :: 't' :: 't' :: 'e' :: 'r' :: '.' :: 'c' :: 'o' :: 'm' :: '/' ::
        (['u'] ++ '/' :: 's' :: 't' :: 'a' :: 't' :: 'u' :: 's' :: '/' :: D.data)) =
      some D.data :=
    reSearch_hit _ _
      (matchAt_twitter_status ['u'] D.data (by simp) (by simp) (string_ne_data D hD) hD2)
  unfold extractTweetId
  rw [hdata, reSearch_https]
  rw [reSearch_step 'n' _ (matchAt_ne_host 'n' _ (by decide) (by decide))]
  rw [reSearch_step 'o' _ (matchAt_ne_host 'o' _ (by decide) (by decide))]
  rw [reSearch_step 't' _ (matchAt_t_fail 't' _ (by decide))]
  rw [hre]

theorem hostAlt_eq_append (s r : List Char) (h : hostAlt s = some r) :
    s = twitterHost ++ r ∨ s = xHost ++ r := by
  unfold hostAlt at h
  cases ht : litMatch twitterHost s with
  | some r0 =>
    rw [ht] at h
    have hr : r0 = r := by simpa using h
    subst hr
    exact Or.inl (litMatch_eq_append _ _ _ ht)
  | none =>
    rw [ht] at h
    exact Or.inr (litMatch_eq_append _ _ _ (by simpa using h))

theorem matchAt_status_occurs (s d : List Char) (h : matchAt s = some d) :
    statusChars <:+: s := by
  unfold matchAt at h
  cases hh : hostAlt s with
  | none => rw [hh] at h; simp at h
  | some r1 =>
    rw [hh] at h
    obtain ⟨host, hs⟩ : ∃ host, s = host ++ r1 := by
      rcases hostAlt_eq_append s r1 hh with hs | hs
      · exact ⟨twitterHost, hs⟩
      · exact ⟨xHost, hs⟩
    cases r1 with
    | nil => simp at h
    | cons a r2 =>
      by_cases ha : a = '/'
      · subst ha
        by_cases htw : r2.takeWhile (fun c => c != '/') = []
        · simp [htw] at h
        · cases hst : litMatch statusLit (r2.dropWhile (fun c => c != '/')) with
          | none => simp [htw, hst] at h
          | some r4 =>
            have hdw : r2.dropWhile (fun c => c != '/') = statusLit ++ r4 :=
              litMatch_eq_append _ _ _ hst
            set tw := r2.takeWhile (fun c => c != '/') with htweq
            have h0 : tw ++ r2.dropWhile (fun c => c != '/') = r2 := by
              rw [htweq]
              exact List.takeWhile_append_dropWhile _ _
            have hr2 : r2 = tw ++ ('/' :: (statusChars ++ r4)) := by
              conv_lhs => rw [← h0]
              rw [hdw]
              rfl
            refine ⟨host ++ '/' :: (tw ++ ['/']), r4, ?_⟩
            rw [hs, hr2]
            simp [List.append_assoc]
      · simp [ha] at h

theorem reSearch_status_occurs (s d : List Char) (h : reSearch s = some d) :
    statusChars <:+: s := by
  induction s with
  | nil => simp [reSearch, matchAt, hostAlt, litMatch, twitterHost, xHost] at h
  | cons c t ih =>
    cases hm : matchAt (c :: t) with
    | some d0 =>
      exact matchAt_status_occurs _ _ hm
    | none =>
      rw [reSearch_step _ _ hm] at h
      obtain ⟨pre, post, hp⟩ := ih h
      exact ⟨c :: pre, post, by rw [← hp]; simp⟩

theorem extract_fail_of_no_status (url : String) (h : ¬ statusChars <:+: url.data) :
    extractTweetId url = Except.error (invalidUrlMsg url) := by
  unfold extractTweetId
  cases hr : reSearch url.data with
  | none => rfl
  | some d => exact absurd (reSearch_status_occurs _ _ hr) h

/-! ### Claim theorems -/

/-- C1: for every response document whose `mediaDetails` list contains a
`video`/`animated_gif` entry, tier 1 takes the cover from the first such
entry's `media_url_https` and the video URL from its variants, ignoring
all later entries; the selection considers only `video/mp4` variants; the
first MP4 variant seen is always provisionally selected (even with bitrate
0); a later variant replaces the selection only when its bitrate strictly
exceeds the best seen so far or no URL has been chosen yet; under
non-empty variant URLs the chosen URL carries the maximum bitrate among
the MP4 variants; and when the chosen URL is non-empty it becomes the
result's `videoUrl` with the entry's cover. -/
theorem c1_tier1_selection (doc : TweetDoc) (pre post : List MediaDetail) (m : MediaDetail)
    (hdoc : doc.mediaDetails = pre ++ m :: post)
    (hpre : ∀ x ∈ pre, isVideoMedia x = false)
    (hm : isVideoMedia m = true) :
    scanMedia doc.mediaDetails = (selectVariants m.variants, m.media_url_https.getD "") ∧
    selPair m.variants = selPair (m.variants.filter isMp4) ∧
    (∀ ws v, (∀ w ∈ ws, isMp4 w = false) → isMp4 v = true →
      selectVariants (ws ++ [v]) = v.url.getD "") ∧
    (∀ l v, isMp4 v = true →
      selPair (l ++ [v]) =
        if (selPair l).1 < v.bitrate.getD 0 ∨ (selPair l).2 = ""
        then (v.bitrate.getD 0, v.url.getD "") else selPair l) ∧
    ((∀ v ∈ m.variants, isMp4 v = true → v.url.getD "" ≠ "") →
      m.variants.filter isMp4 ≠ [] →
      ∃ v ∈ m.variants.filter isMp4, selectVariants m.variants = v.url.getD "" ∧
        ∀ w ∈ m.variants.filter isMp4, w.bitrate.getD 0 ≤ v.bitrate.getD 0) ∧
    (selectVariants m.variants ≠ "" →
      parseVideoIdDoc doc =
        Except.ok
          { video_url := selectVariants m.variants
            cover_url := m.media_url_https.getD ""
            title := doc.text.getD ""
            images := []
            author := authorOf doc }) := by
  have hscan : scanMedia doc.mediaDetails =
      (selectVariants m.variants, m.media_url_https.getD "") := by
    rw [hdoc, scanMedia_skip pre _ hpre, scanMedia_video m post hm]
  refine ⟨hscan, foldl_selStep_filter _ _, selectVariants_first_mp4, selPair_append_mp4,
    selectVariants_max _, ?_⟩
  intro hsel
  have hne : (scanMedia doc.mediaDetails).1 ≠ "" := by rw [hscan]; exact hsel
  have ht12 : tier12 doc = (selectVariants m.variants, m.media_url_https.getD "") := by
    rw [tier12_of_video doc hne, hscan]
  rw [parse_ok_of_video doc (by rw [ht12]; exact hsel), ht12]

/-- C1 witness: on the concrete fixture with MP4 bitrates 832000 and
2176000 the tier-1 scan picks the 2176000 MP4's URL and the entry's
cover. -/
theorem c1_tier1_selection_witness :
    scanMedia exVideoDoc.mediaDetails =
      (selectVariants exVideoMedia.variants, exVideoMedia.media_url_https.getD "") ∧
    selectVariants exVideoMedia.variants = "https://video.twimg.com/2176.mp4" :=
  ⟨(c1_tier1_selection exVideoDoc [] [] exVideoMedia rfl (by simp) (by decide)).1, by rfl⟩

/-- C2: on every response document `parse_video_id` either returns a
result in which exactly one of `videoUrl` non-empty or `images` non-empty
holds, or fails with the no-media error; it fails with exactly that error
precisely when the three tiers produced neither a video URL nor images,
and no other error is possible. -/
theorem c2_media_dichotomy (doc : TweetDoc) :
    (∀ vi, parseVideoIdDoc doc = Except.ok vi →
      (vi.video_url ≠ "" ∧ vi.images = []) ∨ (vi.video_url = "" ∧ vi.images ≠ [])) ∧
    (parseVideoIdDoc doc = Except.error noMediaMsg ↔
      ((tier12 doc).1 = "" ∧ tier3Images doc = [])) ∧
    (∀ e, parseVideoIdDoc doc = Except.error e → e = noMediaMsg) := by
  by_cases hc : (tier12 doc).1 = "" ∧ tier3Images doc = []
  · have hp : parseVideoIdDoc doc = Except.error noMediaMsg := by
      unfold parseVideoIdDoc
      rw [if_pos hc]
    refine ⟨?_, by simp [hp, hc], ?_⟩
    · intro vi hvi
      rw [hp] at hvi
      exact absurd hvi (by simp)
    · intro e he
      rw [hp] at he
      have : noMediaMsg = e := by simpa using he
      exact this.symm
  · have hp : parseVideoIdDoc doc =
        Except.ok
          { video_url := (tier12 doc).1
            cover_url := finalCover doc
            title := doc.text.getD ""
            images := tier3Images doc
            author := authorOf doc } := by
      unfold parseVideoIdDoc
      rw [if_neg hc]
    refine ⟨?_, ?_, ?_⟩
    · intro vi hvi
      rw [hp] at hvi
      rw [Except.ok.injEq] at hvi
      subst hvi
      by_cases hv : (tier12 doc).1 = ""
      · right
        refine ⟨hv, ?_⟩
        intro hi
        exact hc ⟨hv, hi⟩
      · left
        exact ⟨hv, tier3Images_of_video doc hv⟩
    · constructor
      · intro he
        rw [hp] at he
        exact absurd he (by simp)
      · intro hcc
        exact absurd hcc hc
    · intro e he
      rw [hp] at he
      exact absurd he (by simp)

/-- C2 witness: the video fixture returns a result with a non-empty video
URL and an empty image list. -/
theorem c2_media_dichotomy_witness :
    (exVideoResult.video_url ≠ "" ∧ exVideoResult.images = []) ∨
    (exVideoResult.video_url = "" ∧ exVideoResult.images ≠ []) :=
  (c2_media_dichotomy exVideoDoc).1 exVideoResult (by rfl)

/-- C3 counterexample: when the transport raises during the short-link
GET, `_resolve_tco_url` propagates the error instead of returning the
original URL — the function body has no exception handler, so the claim's
"never raises" clause fails. -/
theorem c3_counterexample :
    resolveTcoUrl "https://t.co/abc" (Except.error "httpx.ConnectError") =
      Except.error "httpx.ConnectError" ∧
    resolveTcoUrl "https://t.co/abc" (Except.error "httpx.ConnectError") ≠
      Except.ok "https://t.co/abc" := by
  refine ⟨rfl, ?_⟩
  intro h
  simp [resolveTcoUrl] at h

/-- C3 amended: given a response, the resolver never fails and returns the
`Location` header exactly when the status is 301 or 302 and the header is
present and non-empty, otherwise the original URL; a transport error
during the GET propagates unchanged. -/
theorem c3_resolver_amended (tco_url : String) (response : HttpResponse) (e : String) :
    resolveTcoUrl tco_url (Except.error e) = Except.error e ∧
    resolveTcoUrl tco_url (Except.ok response) =
      Except.ok
        (if (response.status_code = 301 ∨ response.status_code = 302) ∧
            response.location.getD "" ≠ ""
         then response.location.getD "" else tco_url) := by
  refine ⟨rfl, ?_⟩
  by_cases h1 : response.status_code = 301 ∨ response.status_code = 302
  · by_cases h2 : response.location.getD "" ≠ ""
    · simp [resolveTcoUrl, h1, h2]
    · simp [resolveTcoUrl, h1, h2]
  · simp [resolveTcoUrl, h1]

/-- C4 counterexample: the URL `https://x.com/u/status/12ab` has an id
part that is not a digit sequence, yet extraction succeeds with `"12"`
(the regex captures the maximal leading digit run) instead of failing
with the invalid-URL error as the claim states. -/
theorem c4_counterexample :
    extractTweetId "https://x.com/u/status/12ab" = Except.ok "12" := by
  rfl

/-- C4 amended: for every digit sequence `D` the three direct URL shapes
extract exactly `D`; every URL not containing the substring `status`
fails with the invalid-URL error carrying the URL; but an id part that
merely begins with digits succeeds with the leading digit run
(`status/12ab` gives `"12"`), and only an id beginning with a non-digit
(such as `status/abc`) fails. -/
theorem c4_extraction_amended :
    (∀ u D : String, u ≠ "" → (∀ c ∈ u.data, c ≠ '/') → D ≠ "" →
      (∀ c ∈ D.data, c.isDigit = true) →
      extractTweetId ("https://x.com/" ++ u ++ "/status/" ++ D) = Except.ok D ∧
      extractTweetId ("https://twitter.com/" ++ u ++ "/status/" ++ D) = Except.ok D ∧
      extractTweetId ("https://mobile.twitter.com/" ++ u ++ "/statuses/" ++ D) = Except.ok D) ∧
    (∀ url : String, ¬ statusChars <:+: url.data →
      extractTweetId url = Except.error (invalidUrlMsg url)) ∧
    extractTweetId "https://x.com/u/status/12ab" = Except.ok "12" ∧
    extractTweetId "https://x.com/u/status/abc" =
      Except.error (invalidUrlMsg "https://x.com/u/status/abc") := by
  refine ⟨?_, extract_fail_of_no_status, by rfl, by rfl⟩
  intro u D hu hu2 hD hD2
  exact ⟨extract_ok_x u D hu hu2 hD hD2, extract_ok_twitter u D hu hu2 hD hD2,
    extract_ok_mobile u D hu hu2 hD hD2⟩

/-- C4 witness: the `x.com` shape with user `alice` and id `123`
extracts `123`. -/
theorem c4_extraction_amended_witness :
    extractTweetId ("https://x.com/" ++ "alice" ++ "/status/" ++ "123") = Except.ok "123" :=
  (c4_extraction_amended.1 "alice" "123" (by decide) (by decide) (by decide) (by decide)).1

/-- C6 counterexample: on a document where tier 1 finds a video entry
(setting the cover) but no MP4 URL, and the top-level `video` field has a
non-empty variants list with no MP4 variant, tier 2 still overwrites the
cover with the poster even though no MP4 variant URL was obtained — the
tier-1 cover is not left in place as the claim states. -/
theorem c6_counterexample :
    scanMedia exPosterDoc.mediaDetails = ("", "https://pbs.twimg.com/tier1-cover.jpg") ∧
    (tier12 exPosterDoc).1 = "" ∧
    (tier12 exPosterDoc).2 = "https://pbs.twimg.com/poster.jpg" :=
  ⟨rfl, rfl, rfl⟩

/-- C6 amended: tier 2 runs only when tier 1 yielded no video URL; it
applies the same MP4-filter-and-max-bitrate selection to the top-level
variants list; the cover is taken from the poster whenever that list is
non-empty — even when no MP4 variant URL is obtained, overwriting any
tier-1 cover — and the tier-1 pair is left in place only when the
top-level variants list is empty or absent. -/
theorem c6_tier2_amended (doc : TweetDoc) :
    ((scanMedia doc.mediaDetails).1 ≠ "" → tier12 doc = scanMedia doc.mediaDetails) ∧
    ((scanMedia doc.mediaDetails).1 = "" → topVariants doc = [] →
      tier12 doc = scanMedia doc.mediaDetails) ∧
    ((scanMedia doc.mediaDetails).1 = "" → topVariants doc ≠ [] →
      tier12 doc = (selectVariants (topVariants doc), topPoster doc) ∧
      selPair (topVariants doc) = selPair ((topVariants doc).filter isMp4) ∧
      ((∀ v ∈ topVariants doc, isMp4 v = true → v.url.getD "" ≠ "") →
        (topVariants doc).filter isMp4 ≠ [] →
        ∃ v ∈ (topVariants doc).filter isMp4,
          selectVariants (topVariants doc) = v.url.getD "" ∧
          ∀ w ∈ (topVariants doc).filter isMp4,
            w.bitrate.getD 0 ≤ v.bitrate.getD 0)) := by
  refine ⟨tier12_of_video doc, tier12_no_top doc, ?_⟩
  intro h1 h2
  exact ⟨tier12_top doc h1 h2, foldl_selStep_filter _ _, selectVariants_max _⟩

/-- C6 witness: on the fixture whose only video is the top-level `video`
field, tier 2 selects its MP4 URL together with the poster. -/
theorem c6_tier2_amended_witness :
    tier12 exTopVideoDoc = (selectVariants (topVariants exTopVideoDoc), topPoster exTopVideoDoc) ∧
    selectVariants (topVariants exTopVideoDoc) = "https://video.twimg.com/top.mp4" :=
  ⟨((c6_tier2_amended exTopVideoDoc).2.2 (by rfl) (by decide)).1, by rfl⟩

/-- C7: when no video URL was obtained and `mediaDetails` is non-empty,
the images are exactly the `photo` entries in document order with empty
image URLs skipped, and when at least one image was collected the call
succeeds with `videoUrl` empty, that image list, and the first image's
URL as the cover. -/
theorem c7_photo_fallback (doc : TweetDoc)
    (hvid : (tier12 doc).1 = "") (hmd : doc.mediaDetails ≠ []) :
    tier3Images doc = photoImages doc.mediaDetails ∧
    photoImages doc.mediaDetails =
      (doc.mediaDetails.filter
        (fun media => isPhoto media && (media.media_url_https.getD "" != ""))).map
        (fun media => { url := media.media_url_https.getD "" }) ∧
    (∀ img rest, photoImages doc.mediaDetails = img :: rest →
      parseVideoIdDoc doc =
        Except.ok
          { video_url := ""
            cover_url := img.url
            title := doc.text.getD ""
            images := img :: rest
            author := authorOf doc }) := by
  have h3 : tier3Images doc = photoImages doc.mediaDetails :=
    tier3Images_of_photos doc hvid hmd
  refine ⟨h3, photoImages_eq_filter _, ?_⟩
  intro img rest himg
  have hni : tier3Images doc ≠ [] := by
    rw [h3, himg]
    simp
  have hcov : finalCover doc = img.url := by
    unfold finalCover
    rw [h3, himg]
  unfold parseVideoIdDoc
  rw [if_neg (fun hc => hni hc.2), hcov, hvid, h3, himg]

/-- C7 witness: three photo entries give an images sequence of length 3
in original order, the first photo URL as cover, and empty `videoUrl`. -/
theorem c7_photo_fallback_witness :
    parseVideoIdDoc exPhotoDoc =
      Except.ok
        { video_url := ""
          cover_url := "https://pbs.twimg.com/1.jpg"
          title := "pics"
          images := [{ url := "https://pbs.twimg.com/1.jpg" }, { url := "https://pbs.twimg.com/2.jpg" },
            { url := "https://pbs.twimg.com/3.jpg" }]
          author := { uid := "42", name := "alice", avatar := "" } } :=
  (c7_photo_fallback exPhotoDoc (by rfl) (by decide)).2.2
    { url := "https://pbs.twimg.com/1.jpg" }
    [{ url := "https://pbs.twimg.com/2.jpg" }, { url := "https://pbs.twimg.com/3.jpg" }] (by rfl)

/-- C8 counterexample: the pattern is compiled without a case-insensitive
flag, so `https://X.com/u/status/5` — the claimed-accepted uppercase
variant — fails with the invalid-URL error instead of extracting `5`. -/
theorem c8_counterexample :
    extractTweetId "https://X.com/u/status/5" =
      Except.error (invalidUrlMsg "https://X.com/u/status/5") := by
  rfl

/-- C8 amended: domain matching is case-sensitive; the lowercase-domain
shapes extract `D`, while uppercase spellings of the domain
(`https://X.com/...`, `https://TWITTER.com/...`) fail with the
invalid-URL error. -/
theorem c8_case_sensitivity_amended :
    (∀ D : String, D ≠ "" → (∀ c ∈ D.data, c.isDigit = true) →
      extractTweetId ("https://x.com/" ++ "user" ++ "/status/" ++ D) = Except.ok D ∧
      extractTweetId ("https://twitter.com/" ++ "user" ++ "/status/" ++ D) = Except.ok D) ∧
    extractTweetId "https://X.com/user/status/5" =
      Except.error (invalidUrlMsg "https://X.com/user/status/5") ∧
    extractTweetId "https://TWITTER.com/user/status/5" =
      Except.error (invalidUrlMsg "https://TWITTER.com/user/status/5") := by
  refine ⟨?_, by rfl, by rfl⟩
  intro D hD hD2
  exact ⟨extract_ok_x "user" D (by decide) (by decide) hD hD2,
    extract_ok_twitter "user" D (by decide) (by decide) hD hD2⟩

/-- C8 witness: the lowercase `x.com` shape with id `77` extracts `77`. -/
theorem c8_case_sensitivity_amended_witness :
    extractTweetId ("https://x.com/" ++ "user" ++ "/status/" ++ "77") = Except.ok "77" :=
  (c8_case_sensitivity_amended.1 "77" (by decide) (by decide)).1

/-- C9: the pattern is unanchored, so URLs on unrelated hosts whose names
merely end in the known domains — `https://evil-x.com/u/status/D` and
`https://nottwitter.com/u/status/D` — are accepted and return `D` for
every digit sequence `D`, instead of failing. -/
theorem c9_unanchored_hosts (D : String) (hD : D ≠ "")
    (hD2 : ∀ c ∈ D.data, c.isDigit = true) :
    extractTweetId ("https://evil-x.com/u/status/" ++ D) = Except.ok D ∧
    extractTweetId ("https://nottwitter.com/u/status/" ++ D) = Except.ok D :=
  ⟨extract_ok_evil D hD hD2, extract_ok_nottwitter D hD hD2⟩

/-- C9 witness: `https://evil-x.com/u/status/99` extracts `99`. -/
theorem c9_unanchored_hosts_witness :
    extractTweetId ("https://evil-x.com/u/status/" ++ "99") = Except.ok "99" :=
  (c9_unanchored_hosts "99" (by decide) (by decide)).1

/-- C10: the resolution outcome (success or no-media failure) does not
depend on the `user` object; with `user` absent a successful result
carries empty `uid`, `displayName` and `avatarUrl`; with `user` present,
each absent field defaults its result field to the empty string, and the
display name is empty when both `name` and `screen_name` are absent or
empty. -/
theorem c10_author_defaults (user : Option UserData) (text : Option String)
    (md : List MediaDetail) (vid : Option TopVideo) :
    ((parseVideoIdDoc ⟨user, text, md, vid⟩).isOk =
      (parseVideoIdDoc ⟨none, text, md, vid⟩).isOk) ∧
    (∀ vi, parseVideoIdDoc ⟨none, text, md, vid⟩ = Except.ok vi →
      vi.author = ⟨"", "", ""⟩) ∧
    (∀ u vi, user = some u → parseVideoIdDoc ⟨user, text, md, vid⟩ = Except.ok vi →
      (u.id_str = none → vi.author.uid = "") ∧
      (u.profile_image_url_https = none → vi.author.avatar = "") ∧
      (u.name.getD "" = "" → u.screen_name.getD "" = "" → vi.author.name = "")) := by
  have hcond : ((tier12 ⟨user, text, md, vid⟩).1 = "" ∧ tier3Images ⟨user, text, md, vid⟩ = []) ↔
      ((tier12 ⟨none, text, md, vid⟩).1 = "" ∧ tier3Images ⟨none, text, md, vid⟩ = []) :=
    Iff.rfl
  refine ⟨?_, ?_, ?_⟩
  · by_cases hc : (tier12 ⟨user, text, md, vid⟩).1 = "" ∧ tier3Images ⟨user, text, md, vid⟩ = []
    · unfold parseVideoIdDoc
      rw [if_pos hc, if_pos (hcond.mp hc)]
    · unfold parseVideoIdDoc
      rw [if_neg hc, if_neg (fun hx => hc (hcond.mpr hx))]
      rfl
  · intro vi hvi
    unfold parseVideoIdDoc at hvi
    by_cases hc : (tier12 ⟨none, text, md, vid⟩).1 = "" ∧ tier3Images ⟨none, text, md, vid⟩ = []
    · rw [if_pos hc] at hvi
      exact absurd hvi (by simp)
    · rw [if_neg hc] at hvi
      rw [Except.ok.injEq] at hvi
      subst hvi
      rfl
  · intro u vi hu hvi
    subst hu
    unfold parseVideoIdDoc at hvi
    by_cases hc : (tier12 ⟨some u, text, md, vid⟩).1 = "" ∧ tier3Images ⟨some u, text, md, vid⟩ = []
    · rw [if_pos hc] at hvi
      exact absurd hvi (by simp)
    · rw [if_neg hc] at hvi
      rw [Except.ok.injEq] at hvi
      subst hvi
      refine ⟨?_, ?_, ?_⟩
      · intro hid
        simp [authorOf, hid]
      · intro hav
        simp [authorOf, hav]
      · intro hn hsn
        simp [authorOf, displayNameOf, hn, hsn]

/-- C10 witness: on the three-photo document with the `user` object
removed, resolution succeeds and all author fields are empty. -/
theorem c10_author_defaults_witness : exPhotoNoUserResult.author = ⟨"", "", ""⟩ :=
  (c10_author_defaults none (some "pics") exPhotoDoc.mediaDetails none).2.1
    exPhotoNoUserResult (by rfl)
